import Mathlib

/-!
Verification development for the kubectl-trace job lifecycle core.

The file embeds `src/pkg/cmd/run.go` (argument validation, completion,
and the run pipeline) as executable Lean functions, and models the
components whose source lives in packages not present under `src/`
(the tracejob client, the status tracker and the attacher) from the
specification's description of their behaviour.  Theorems about the
frozen claims follow the definitions.
-/

namespace KubectlTrace

/-! ## Error strings from src/pkg/cmd/run.go -/

def usageString : String := "(POD | TYPE/NAME)"

def requiredArgErrString : String :=
  usageString ++ " is a required argument for the run command"

def containerAsArgOrFlagErrString : String :=
  "specify container inline as argument or via its flag"

def bpftraceMissingErrString : String :=
  "the bpftrace program is mandatory"

def bpftraceDoubleErrString : String :=
  "specify the bpftrace program either via an external file or via a literal string, not both"

def bpftraceEmptyErrString : String :=
  "the bpftrace programm cannot be empty"

def podsUnsupportedErrString : String :=
  "running bpftrace programs against pods is not supported yet, see: https://github.com/fntlnz/kubectl-trace/issues/3"

def hostnameLabelMissingErrString : String :=
  "label kubernetes.io/hostname not found in node"

def firstArgumentErrString : String :=
  "first argument must be " ++ usageString

def openProgramFileErrString : String :=
  "error opening program file"

/-! ## RunOptions (src/pkg/cmd/run.go) -/

/-- The mutable option record of the run command.  `ns` stands for the Go
field `namespace` (a Lean keyword); `clientConfigSet` records whether the
REST client configuration was prepared (the Go field `clientConfig`). -/
structure RunOptions where
  container : String := ""
  eval : String := ""
  program : String := ""
  resourceArg : String := ""
  attach : Bool := false
  nodeName : String := ""
  ns : String := ""
  explicitNamespace : Bool := false
  clientConfigSet : Bool := false
deriving Repr, DecidableEq

/-- Which cobra flags were explicitly set on the command line
(`cmd.Flag(...).Changed` in the Go source). -/
structure CmdFlags where
  containerChanged : Bool := false
  evalChanged : Bool := false
  filenameChanged : Bool := false
deriving Repr, DecidableEq

/-- The shared program-flag checks at the end of `RunOptions.Validate`
(run.go lines 127-135). -/
def validateProgramFlags (o : RunOptions) (flags : CmdFlags) : Except String RunOptions :=
  if !flags.evalChanged && !flags.filenameChanged then
    .error bpftraceMissingErrString
  else if flags.evalChanged == flags.filenameChanged then
    .error bpftraceDoubleErrString
  else if (flags.evalChanged && o.eval.length == 0)
       || (flags.filenameChanged && o.program.length == 0) then
    .error bpftraceEmptyErrString
  else
    .ok o

/-- Embedding of `RunOptions.Validate` (run.go lines 109-138): the argument
switch on `len(args)` followed by the program-flag checks. -/
def Validate (o : RunOptions) (flags : CmdFlags) (args : List String) :
    Except String RunOptions :=
  match args with
  | [a0] =>
      validateProgramFlags { o with resourceArg := a0 } flags
  | [a0, a1] =>
      if flags.containerChanged then
        .error containerAsArgOrFlagErrString
      else
        validateProgramFlags { o with resourceArg := a0, container := a1 } flags
  | _ => .error requiredArgErrString

/-! ## Complete (src/pkg/cmd/run.go lines 141-205) -/

/-- The object a resource lookup resolves to: a pod, a node carrying a label
map, or anything else (the `default` arm of the Go type switch). -/
inductive KubeObject where
  | pod
  | node (labels : List (String × String))
  | other
deriving Repr, DecidableEq

/-- The external collaborators consumed by `Complete`: namespace resolution
from the kubeconfig loader, `ioutil.ReadFile`, the resource-builder lookup
(namespace and resource argument to resolved object), and `ToRESTConfig`. -/
structure Factory where
  namespaceResult : Except String (String × Bool)
  readFile : String → Except String String
  lookupObject : String → String → Except String KubeObject
  restConfig : Except String Unit

/-- Embedding of `RunOptions.Complete` (run.go lines 141-205): resolve the
program text (file contents when a filename was given, else the eval
literal), resolve the namespace, look up the target object, reject pods and
unlabelled nodes, then prepare the REST client configuration. -/
def Complete (f : Factory) (o : RunOptions) : Except String RunOptions :=
  let step1 : Except String RunOptions :=
    if o.program.length > 0 then
      match f.readFile o.program with
      | .error _ => .error openProgramFileErrString
      | .ok b => .ok { o with program := b }
    else
      .ok { o with program := o.eval }
  match step1 with
  | .error e => .error e
  | .ok o1 =>
    match f.namespaceResult with
    | .error e => .error e
    | .ok (nsv, expl) =>
      let o2 := { o1 with ns := nsv, explicitNamespace := expl }
      match f.lookupObject o2.ns o2.resourceArg with
      | .error e => .error e
      | .ok obj =>
        match obj with
        | .pod => .error podsUnsupportedErrString
        | .node labels =>
          match labels.lookup "kubernetes.io/hostname" with
          | none => .error hostnameLabelMissingErrString
          | some val =>
            let o3 := { o2 with nodeName := val }
            match f.restConfig with
            | .error e => .error e
            | .ok _ => .ok { o3 with clientConfigSet := true }
        | .other => .error firstArgumentErrString

/-! ## TraceJob and the remote control-plane state -/

/-- The logical unit of work (struct `tracejob.TraceJob` as populated by
`RunOptions.Run`, run.go lines 225-231). -/
structure TraceJob where
  Name : String
  Namespace : String
  ID : String
  Hostname : String
  Program : String
deriving Repr, DecidableEq

/-- Modelled from the spec: `meta.ObjectNamePrefix` (package `pkg/meta`,
not under `src/`), the fixed prefix prepended to the generated ID to form
the remote object name. -/
def ObjectNamePrefix : String := "kubectl-trace-"

/-- The TraceJob name computed by `RunOptions.Run` (run.go line 226):
the fixed prefix concatenated with the generated ID. -/
def traceJobName (juid : String) : String := ObjectNamePrefix ++ juid

/-- The TraceJob constructed by `RunOptions.Run` (run.go lines 225-231). -/
def mkTraceJob (juid : String) (o : RunOptions) : TraceJob :=
  { Name := traceJobName juid
    Namespace := o.ns
    ID := juid
    Hostname := o.nodeName
    Program := o.program }

/-- The remote control plane's observable state: the config objects
(name paired with the stored program text) and the execution units. -/
structure RemoteState where
  configMaps : List (String × String)
  jobs : List TraceJob
deriving Repr, DecidableEq

def emptyRemote : RemoteState := ⟨[], []⟩

/-! ## Execution Client (pkg/tracejob, not under src/): modelled from the spec -/

/-- Injectable control-plane rejections for the two creation calls. -/
structure ControlPlaneEnv where
  configCreateError : Option String := none
  jobCreateError : Option String := none
deriving Repr, DecidableEq

/-- Modelled from the spec: creation of the config object.  A control-plane
rejection surfaces verbatim; creating an already-existing name fails with
an already-exists condition; otherwise the object is stored. -/
def createConfigMap (env : ControlPlaneEnv) (name prog : String) (s : RemoteState) :
    Except String RemoteState :=
  match env.configCreateError with
  | some e => .error e
  | none =>
    if s.configMaps.any (fun c => c.1 == name) then
      .error ("configmaps " ++ name ++ " already exists")
    else
      .ok { s with configMaps := s.configMaps ++ [(name, prog)] }

/-- Modelled from the spec: creation of the execution unit referencing the
config object of the same name. -/
def createJobUnit (env : ControlPlaneEnv) (tj : TraceJob) (s : RemoteState) :
    Except String RemoteState :=
  match env.jobCreateError with
  | some e => .error e
  | none =>
    if s.jobs.any (fun j => j.Name == tj.Name) then
      .error ("jobs " ++ tj.Name ++ " already exists")
    else
      .ok { s with jobs := s.jobs ++ [tj] }

/-- Modelled from the spec: `TraceJobClient.CreateJob` (pkg/tracejob, not
under `src/`).  Creates the config object first, then the execution unit
referencing it; if unit creation fails after the config object was created,
the error is returned and the config object is left in place. -/
def CreateJob (env : ControlPlaneEnv) (tj : TraceJob) (s : RemoteState) :
    Except String TraceJob × RemoteState :=
  match createConfigMap env tj.Name tj.Program s with
  | .error e => (.error e, s)
  | .ok s1 =>
    match createJobUnit env tj s1 with
    | .error e => (.error e, s1)
    | .ok s2 => (.ok tj, s2)

/-- Injectable remote failures for the two deletion calls; a failure applies
only when the object exists (the remote call that would remove it fails),
since deleting a non-existent object is answered with not-found, which the
client treats as a no-op. -/
structure DeleteEnv where
  jobDeleteError : Option String := none
  configDeleteError : Option String := none
deriving Repr, DecidableEq

/-- Modelled from the spec: deletion of the execution unit.  Deleting a
non-existent unit is a no-op, not an error. -/
def deleteJobUnit (env : DeleteEnv) (name : String) (s : RemoteState) :
    Option String × RemoteState :=
  if s.jobs.any (fun j => j.Name == name) then
    match env.jobDeleteError with
    | some e => (some e, s)
    | none => (none, { s with jobs := s.jobs.filter (fun j => j.Name != name) })
  else
    (none, s)

/-- Modelled from the spec: deletion of the config object.  Deleting a
non-existent config object is a no-op, not an error. -/
def deleteConfigMap (env : DeleteEnv) (name : String) (s : RemoteState) :
    Option String × RemoteState :=
  if s.configMaps.any (fun c => c.1 == name) then
    match env.configDeleteError with
    | some e => (some e, s)
    | none => (none, { s with configMaps := s.configMaps.filter (fun c => c.1 != name) })
  else
    (none, s)

/-- Modelled from the spec: `TraceJobClient.DeleteJobs` (pkg/tracejob, not
under `src/`).  Both deletions are attempted regardless of either's outcome
and the failures are aggregated in the returned list. -/
def DeleteJobs (env : DeleteEnv) (name : String) (s : RemoteState) :
    List String × RemoteState :=
  let r1 := deleteJobUnit env name s
  let r2 := deleteConfigMap env name r1.2
  (r1.1.toList ++ r2.1.toList, r2.2)

/-! ## Run (src/pkg/cmd/run.go lines 208-249) -/

/-- Per-invocation environment of `RunOptions.Run`: the client-side
generated ID (`uuid.NewUUID()`), possible failures of the two typed client
constructors, and the control-plane behaviour for `CreateJob`. -/
structure RunEnv where
  juid : String
  jobsClientError : Option String := none
  coreClientError : Option String := none
  createEnv : ControlPlaneEnv := {}
deriving Repr, DecidableEq

/-- Embedding of `RunOptions.Run` (run.go lines 208-249): construct the two
typed clients, build the TraceJob with the prefixed name, and call
`CreateJob`.  The attach path opens a stream only and creates no remote
object, so it does not touch the remote state. -/
def Run (env : RunEnv) (o : RunOptions) (s : RemoteState) :
    Except String Unit × RemoteState :=
  match env.jobsClientError with
  | some e => (.error e, s)
  | none =>
    match env.coreClientError with
    | some e => (.error e, s)
    | none =>
      match CreateJob env.createEnv (mkTraceJob env.juid o) s with
      | (.error e, s1) => (.error e, s1)
      | (.ok _, s1) => (.ok (), s1)

/-- Where the run command's pipeline stopped: a validation error from the
`PreRunE` hook, an error from `Complete`, an error from `Run` (printed to
the error stream), or success. -/
inductive CmdOutcome where
  | validationError (msg : String)
  | completeError (msg : String)
  | runError (msg : String)
  | success
deriving Repr, DecidableEq

/-- The run command's pipeline as wired in `NewRunCommand` (run.go lines
76-106): `Validate` as the `PreRunE` hook, then `Complete`, then `Run`; a
failure at any stage stops the pipeline there. -/
def execRunCommand (f : Factory) (env : RunEnv) (flags : CmdFlags)
    (args : List String) (o : RunOptions) (s : RemoteState) :
    CmdOutcome × RemoteState :=
  match Validate o flags args with
  | .error e => (.validationError e, s)
  | .ok o1 =>
    match Complete f o1 with
    | .error e => (.completeError e, s)
    | .ok o2 =>
      match Run env o2 s with
      | (.error e, s1) => (.runError e, s1)
      | (.ok _, s1) => (.success, s1)

/-- Whether a pipeline outcome is a validation error from the `PreRunE`
hook. -/
def isValidationError : CmdOutcome → Bool
  | .validationError _ => true
  | _ => false

/-- A factory whose file system serves an empty file for every name, whose
namespace resolves to `default`, and whose lookup finds a labelled node:
the environment of an invocation that passes a file of empty contents. -/
def emptyFileFactory : Factory :=
  { namespaceResult := .ok ("default", false)
    readFile := fun _ => .ok ""
    lookupObject := fun _ _ => .ok (.node [("kubernetes.io/hostname", "node-a")])
    restConfig := .ok () }

/-! ## Status Tracker (not under src/): modelled from the spec -/

/-- The normalized lifecycle state derived on each observation. -/
inductive ExecutionStatus where
  | unknown
  | pending
  | running
  | succeeded
  | failed
  | stopped
deriving Repr, DecidableEq

/-- A terminal condition reported in the execution unit's condition list. -/
inductive JobConditionKind where
  | complete
  | failed
deriving Repr, DecidableEq

/-- One observation of an existing execution unit: the conditions its
condition list reports, and the phase of its backing container. -/
inductive PodPhase where
  | pending
  | running
  | succeeded
  | failed
  | unknown
deriving Repr, DecidableEq

structure UnitSnapshot where
  conditions : List JobConditionKind
  podPhase : PodPhase
deriving Repr, DecidableEq

/-- A remote-status snapshot: either the remote object could not be found
at all, or it was observed with its conditions and container phase. -/
inductive RemoteSnapshot where
  | notFound
  | observed (u : UnitSnapshot)
deriving Repr, DecidableEq

/-- Modelled from the spec: the Status Tracker's derivation of
`ExecutionStatus` from a remote-status snapshot (the tracker lives in a
package not under `src/`).  Terminal failure condition, then terminal
success condition, then a running backing container, else pending; a
snapshot where the remote object cannot be found maps to unknown. -/
def deriveStatus : RemoteSnapshot → ExecutionStatus
  | .notFound => .unknown
  | .observed u =>
    if u.conditions.contains .failed then .failed
    else if u.conditions.contains .complete then .succeeded
    else if u.podPhase = .running then .running
    else .pending

/-! ## Attacher (not under src/): modelled from the spec -/

/-- How an attacher run ended.  `cancelled` is the caller-initiated exit,
distinct by constructor from the natural end of the stream and from a
remote failure; `waiting` means the observation trace ended while the run
was still in progress (still retrying or still relaying). -/
inductive AttachOutcome where
  | cancelled
  | endOfStream
  | remoteFailure (msg : String)
  | waiting
deriving Repr, DecidableEq

/-- One event read from the attached remote stream. -/
inductive StreamEvent where
  | chunk (s : String)
  | eof
  | failure (msg : String)
deriving Repr, DecidableEq

/-- The observable result of an attacher run: how it ended, the tick at
which the attach stream was opened (none if it never was), the relayed
output, how many ticks the run consumed, and whether the local side of the
stream was closed on exit. -/
structure AttachResult where
  outcome : AttachOutcome
  attachTick : Option Nat
  relayed : List String
  ticks : Nat
  localClosed : Bool
deriving Repr, DecidableEq

/-- Whether the cancellation token has fired by tick `t`. -/
def fired (cancelAt : Option Nat) (t : Nat) : Bool :=
  match cancelAt with
  | none => false
  | some k => decide (k ≤ t)

/-- Modelled from the spec: the Attacher's relay phase.  At each tick the
cancellation token is checked first; on cancellation the local side is
closed and the run returns the cancelled outcome.  Otherwise the next
stream event is relayed (chunk), ends the stream naturally (eof), or
surfaces a remote failure. -/
def relay (cancelAt : Option Nat) : List StreamEvent → Nat → List String →
    AttachOutcome × List String × Nat × Bool
  | [], t, acc => (.waiting, acc, t, false)
  | e :: rest, t, acc =>
    if fired cancelAt t then (.cancelled, acc, t + 1, true)
    else
      match e with
      | .chunk s => relay cancelAt rest (t + 1) (acc ++ [s])
      | .eof => (.endOfStream, acc, t + 1, true)
      | .failure m => (.remoteFailure m, acc, t + 1, true)

/-- Modelled from the spec: the Attacher's pre-attach retry loop.  At each
tick the cancellation token is checked first; while the observed status is
not `running` the loop retries (bounded only by cancellation, not by an
attempt count); once the status is `running` the attach stream is opened
exactly once and the relay phase takes over. -/
def pollLoop (cancelAt : Option Nat) : List ExecutionStatus → Nat →
    List StreamEvent → AttachResult
  | [], t, _ => ⟨.waiting, none, [], t, false⟩
  | st :: rest, t, events =>
    if fired cancelAt t then ⟨.cancelled, none, [], t + 1, true⟩
    else if st = .running then
      let r := relay cancelAt events (t + 1) []
      ⟨r.1, some t, r.2.1, r.2.2.1, r.2.2.2⟩
    else
      pollLoop cancelAt rest (t + 1) events

/-- Modelled from the spec: `Attacher.AttachJob` (pkg/attacher, not under
`src/`), run over a trace of polled statuses and stream events, with the
cancellation token possibly firing at tick `cancelAt`. -/
def AttachJob (cancelAt : Option Nat) (statuses : List ExecutionStatus)
    (events : List StreamEvent) : AttachResult :=
  pollLoop cancelAt statuses 0 events

/-! ## Helper lemmas -/

/-- Appending on the left of a string is cancellative. -/
theorem string_append_cancel_left (p a b : String) (h : p ++ a = p ++ b) : a = b := by
  have hd : p.data ++ a.data = p.data ++ b.data := by
    have := congrArg String.data h
    simpa using this
  have hab : a.data = b.data := List.append_cancel_left hd
  cases a; cases b
  exact congrArg String.mk hab

/-- Once `Validate` has accepted the invocation, no later stage of the
pipeline can produce a validation error. -/
theorem validate_ok_no_validation_error (f : Factory) (env : RunEnv) (flags : CmdFlags)
    (args : List String) (o o1 : RunOptions) (s : RemoteState)
    (hv : Validate o flags args = .ok o1) :
    ∀ msg, (execRunCommand f env flags args o s).1 ≠ .validationError msg := by
  intro msg
  unfold execRunCommand
  rw [hv]
  cases hc : Complete f o1 with
  | error e => simp [hc]
  | ok o2 =>
    cases hr : Run env o2 s with
    | mk r s1 => cases r <;> simp [hc, hr]

/-! ## Claim theorems -/

/-- C2 counterexample: an invocation that supplies the program through a
file whose contents are empty.  The resolved tracing-program text is empty
(`readFile` answers the empty string), yet no validation error is raised:
the pipeline succeeds and both remote objects are created, the config
object storing the empty program.  This refutes the claim that every
invocation with an empty resolved program text fails validation before any
remote call. -/
theorem C2_counterexample :
    emptyFileFactory.readFile "empty.bt" = .ok ""
    ∧ (execRunCommand emptyFileFactory { juid := "7f6f0a" } { filenameChanged := true }
        ["node/node-a"] { program := "empty.bt" } emptyRemote)
      = (.success,
         ⟨[("kubectl-trace-7f6f0a", "")],
          [{ Name := "kubectl-trace-7f6f0a", Namespace := "default", ID := "7f6f0a",
             Hostname := "node-a", Program := "" }]⟩) := by
  constructor
  · rfl
  · rfl

/-- C2 (amended): when the program is supplied as an empty literal via the
eval flag, the invocation stops with a validation error before any remote
call and the remote state is untouched; but the empty-program check
inspects only the flag values, so a nonempty filename whose file contents
are empty passes validation and is never rejected by it. -/
theorem C2_amended_empty_program :
    (∀ (f : Factory) (env : RunEnv) (flags : CmdFlags) (args : List String)
        (o : RunOptions) (s : RemoteState),
      flags.evalChanged = true → flags.filenameChanged = false → o.eval = "" →
      isValidationError (execRunCommand f env flags args o s).1 = true
      ∧ (execRunCommand f env flags args o s).2 = s)
    ∧ (∀ (f : Factory) (env : RunEnv) (flags : CmdFlags) (a0 : String)
        (o : RunOptions) (s : RemoteState),
      flags.filenameChanged = true → flags.evalChanged = false →
      0 < o.program.length → f.readFile o.program = .ok "" →
      ∀ msg, (execRunCommand f env flags [a0] o s).1 ≠ .validationError msg) := by
  constructor
  · intro f env flags args o s he hf hev
    match args with
    | [] => constructor <;> simp [execRunCommand, Validate, isValidationError]
    | [a0] =>
      constructor <;>
        simp [execRunCommand, Validate, validateProgramFlags, he, hf, hev, isValidationError]
    | [a0, a1] =>
      by_cases hc : flags.containerChanged
      · constructor <;> simp [execRunCommand, Validate, hc, isValidationError]
      · constructor <;>
          simp [execRunCommand, Validate, validateProgramFlags, he, hf, hev, hc,
            isValidationError]
    | a0 :: a1 :: a2 :: rest =>
      constructor <;> simp [execRunCommand, Validate, isValidationError]
  · intro f env flags a0 o s hf he hlen hread
    have hv : Validate o flags [a0] = .ok { o with resourceArg := a0 } := by
      simp [Validate, validateProgramFlags, he, hf, Nat.pos_iff_ne_zero.mp hlen]
    exact validate_ok_no_validation_error f env flags [a0] o _ s hv

/-- C2 witness: a concrete invocation with an empty eval literal is
rejected by validation and creates nothing. -/
theorem C2_witness :
    isValidationError (execRunCommand emptyFileFactory { juid := "u2" }
      { evalChanged := true } ["node/x"] { eval := "" } emptyRemote).1 = true
    ∧ (execRunCommand emptyFileFactory { juid := "u2" }
      { evalChanged := true } ["node/x"] { eval := "" } emptyRemote).2 = emptyRemote :=
  C2_amended_empty_program.1 emptyFileFactory { juid := "u2" } { evalChanged := true }
    ["node/x"] { eval := "" } emptyRemote rfl rfl rfl

/-- C3: the TraceJob name constructed by `Run` is the fixed prefix
concatenated with the client-side generated ID, and the naming function is
injective: distinct IDs yield distinct names. -/
theorem C3_name_injective :
    (∀ (juid : String) (o : RunOptions), (mkTraceJob juid o).Name = ObjectNamePrefix ++ juid)
    ∧ ∀ id1 id2 : String, id1 ≠ id2 → traceJobName id1 ≠ traceJobName id2 := by
  constructor
  · intro juid o; rfl
  · intro id1 id2 hne h
    exact hne (string_append_cancel_left ObjectNamePrefix id1 id2 h)

/-- C3 witness: two concrete distinct IDs derive distinct names. -/
theorem C3_witness : traceJobName "a" ≠ traceJobName "b" :=
  C3_name_injective.2 "a" "b" (by decide)

/-- C9: when the resolved target node lacks the `kubernetes.io/hostname`
label, the pipeline stops in `Complete` with the missing-label error and
the remote state is returned unchanged: no remote object was created, so
there is nothing to roll back. -/
theorem C9_missing_hostname_label (f : Factory) (env : RunEnv) (flags : CmdFlags)
    (args : List String) (o o1 : RunOptions) (s : RemoteState) (nsv : String) (b : Bool)
    (labels : List (String × String))
    (hv : Validate o flags args = .ok o1)
    (hprep : o1.program.length = 0 ∨ ∃ c, f.readFile o1.program = .ok c)
    (hns : f.namespaceResult = .ok (nsv, b))
    (hlook : f.lookupObject nsv o1.resourceArg = .ok (.node labels))
    (hlab : labels.lookup "kubernetes.io/hostname" = none) :
    execRunCommand f env flags args o s = (.completeError hostnameLabelMissingErrString, s) := by
  have hcomp : Complete f o1 = .error hostnameLabelMissingErrString := by
    by_cases h0 : 0 < o1.program.length
    · obtain ⟨c, hc⟩ : ∃ c, f.readFile o1.program = .ok c := by
        rcases hprep with h | h
        · omega
        · exact h
      simp [Complete, h0, hc, hns, hlook, hlab]
    · simp [Complete, h0, hns, hlook, hlab]
  simp [execRunCommand, hv, hcomp]

/-- C9 witness: a concrete invocation targeting a node without the
hostname label fails with the missing-label error and creates nothing. -/
theorem C9_witness :
    execRunCommand
      { namespaceResult := .ok ("default", false), readFile := fun _ => .error "nofile",
        lookupObject := fun _ _ => .ok (.node []), restConfig := .ok () }
      { juid := "u1" } { evalChanged := true } ["node/x"]
      { eval := "p" } emptyRemote
      = (.completeError hostnameLabelMissingErrString, emptyRemote) :=
  C9_missing_hostname_label _ _ _ _ _ { eval := "p", resourceArg := "node/x" } _ "default" false []
    rfl (Or.inl rfl) rfl rfl rfl

/-- C10: when the target argument resolves to a pod, `Complete` stops with
the pods-unsupported error for every possible REST-configuration and
client-construction environment, and the remote state is returned
unchanged: the pod path never reaches `CreateJob`. -/
theorem C10_pods_unsupported (f : Factory) (env : RunEnv) (flags : CmdFlags)
    (args : List String) (o o1 : RunOptions) (s : RemoteState) (nsv : String) (b : Bool)
    (hv : Validate o flags args = .ok o1)
    (hprep : o1.program.length = 0 ∨ ∃ c, f.readFile o1.program = .ok c)
    (hns : f.namespaceResult = .ok (nsv, b))
    (hlook : f.lookupObject nsv o1.resourceArg = .ok .pod) :
    execRunCommand f env flags args o s = (.completeError podsUnsupportedErrString, s) := by
  have hcomp : Complete f o1 = .error podsUnsupportedErrString := by
    by_cases h0 : 0 < o1.program.length
    · obtain ⟨c, hc⟩ : ∃ c, f.readFile o1.program = .ok c := by
        rcases hprep with h | h
        · omega
        · exact h
      simp [Complete, h0, hc, hns, hlook]
    · simp [Complete, h0, hns, hlook]
  simp [execRunCommand, hv, hcomp]

/-- C10 witness: a concrete invocation whose target resolves to a pod
fails with the pods-unsupported error and creates nothing. -/
theorem C10_witness :
    execRunCommand
      { namespaceResult := .ok ("default", false), readFile := fun _ => .error "nofile",
        lookupObject := fun _ _ => .ok .pod, restConfig := .ok () }
      { juid := "u1" } { evalChanged := true } ["pod/nginx"]
      { eval := "p" } emptyRemote
      = (.completeError podsUnsupportedErrString, emptyRemote) :=
  C10_pods_unsupported _ _ _ _ _ { eval := "p", resourceArg := "pod/nginx" } _ "default" false
    rfl (Or.inl rfl) rfl rfl

/-- C1: the Status Tracker's derivation follows the fixed priority order —
a reported terminal failure condition maps to `failed`; otherwise a
reported terminal success condition maps to `succeeded`; otherwise a
running backing container maps to `running`; otherwise the result is
`pending`; a snapshot where the remote object cannot be found maps to
`unknown` — and the mapping is total: every snapshot maps to one of those
five states. -/
theorem C1_derive_status :
    deriveStatus .notFound = .unknown
    ∧ (∀ u : UnitSnapshot, u.conditions.contains .failed = true →
        deriveStatus (.observed u) = .failed)
    ∧ (∀ u : UnitSnapshot, u.conditions.contains .failed = false →
        u.conditions.contains .complete = true →
        deriveStatus (.observed u) = .succeeded)
    ∧ (∀ u : UnitSnapshot, u.conditions.contains .failed = false →
        u.conditions.contains .complete = false → u.podPhase = .running →
        deriveStatus (.observed u) = .running)
    ∧ (∀ u : UnitSnapshot, u.conditions.contains .failed = false →
        u.conditions.contains .complete = false → u.podPhase ≠ .running →
        deriveStatus (.observed u) = .pending)
    ∧ (∀ snap : RemoteSnapshot,
        deriveStatus snap = .unknown ∨ deriveStatus snap = .pending
        ∨ deriveStatus snap = .running ∨ deriveStatus snap = .succeeded
        ∨ deriveStatus snap = .failed) := by
  refine ⟨rfl, ?_, ?_, ?_, ?_, ?_⟩
  · intro u h
    have h' : JobConditionKind.failed ∈ u.conditions := by simpa using h
    simp [deriveStatus, h']
  · intro u h1 h2
    have h1' : JobConditionKind.failed ∉ u.conditions := by simpa using h1
    have h2' : JobConditionKind.complete ∈ u.conditions := by simpa using h2
    simp [deriveStatus, h1', h2']
  · intro u h1 h2 h3
    have h1' : JobConditionKind.failed ∉ u.conditions := by simpa using h1
    have h2' : JobConditionKind.complete ∉ u.conditions := by simpa using h2
    simp [deriveStatus, h1', h2', h3]
  · intro u h1 h2 h3
    have h1' : JobConditionKind.failed ∉ u.conditions := by simpa using h1
    have h2' : JobConditionKind.complete ∉ u.conditions := by simpa using h2
    simp [deriveStatus, h1', h2', h3]
  · intro snap
    cases snap with
    | notFound => exact Or.inl rfl
    | observed u =>
      simp only [deriveStatus]
      split_ifs <;> simp

/-- C1 witness: a snapshot reporting both terminal conditions derives
`failed` — the failure condition takes priority. -/
theorem C1_witness :
    deriveStatus (.observed ⟨[.complete, .failed], .pending⟩) = .failed :=
  C1_derive_status.2.1 ⟨[.complete, .failed], .pending⟩ (by decide)

/-- C4: `CreateJob` sequences its two remote creations — if the config
object's creation fails, the error is returned with the state untouched,
so the execution unit is never created first; and if unit creation fails
after the config object was created, the error is returned while the
config object stays in place and the job list is unchanged: no automatic
rollback. -/
theorem C4_create_job_order :
    (∀ (env : ControlPlaneEnv) (tj : TraceJob) (s : RemoteState) (e : String),
      env.configCreateError = some e → CreateJob env tj s = (.error e, s))
    ∧ (∀ (env : ControlPlaneEnv) (tj : TraceJob) (s : RemoteState) (e : String),
      env.configCreateError = none → env.jobCreateError = some e →
      s.configMaps.any (fun c => c.1 == tj.Name) = false →
      CreateJob env tj s =
        (.error e, { configMaps := s.configMaps ++ [(tj.Name, tj.Program)], jobs := s.jobs })) := by
  constructor
  · intro env tj s e h
    simp [CreateJob, createConfigMap, h]
  · intro env tj s e h1 h2 h3
    simp [CreateJob, createConfigMap, createJobUnit, h1, h2, h3]

/-- C4 witness: a concrete unit-creation failure leaves the just-created
config object in place and surfaces the error. -/
theorem C4_witness :
    CreateJob { configCreateError := none, jobCreateError := some "boom" }
      { Name := "kubectl-trace-1", Namespace := "default", ID := "1",
        Hostname := "n", Program := "p" }
      emptyRemote
      = (.error "boom", { configMaps := [("kubectl-trace-1", "p")], jobs := [] }) :=
  C4_create_job_order.2 _ _ _ "boom" rfl rfl rfl

/-- Filtering out every job of a given name leaves a list in which no job
of that name can be found. -/
theorem jobs_filter_any (name : String) (l : List TraceJob) :
    (l.filter (fun j => j.Name != name)).any (fun j => j.Name == name) = false := by
  induction l with
  | nil => rfl
  | cons j rest ih =>
    by_cases h : j.Name == name
    · simp [List.filter_cons, bne, h, ih]
    · simp [List.filter_cons, bne, h, ih]

/-- Filtering out every config object of a given name leaves a list in
which no config object of that name can be found. -/
theorem configs_filter_any (name : String) (l : List (String × String)) :
    (l.filter (fun c => c.1 != name)).any (fun c => c.1 == name) = false := by
  induction l with
  | nil => rfl
  | cons c rest ih =>
    by_cases h : c.1 == name
    · simp [List.filter_cons, bne, h, ih]
    · simp [List.filter_cons, bne, h, ih]

/-- After a `DeleteJobs` call that reported no failure, neither remote
object of that name remains. -/
theorem deleteJobs_success_clears (env : DeleteEnv) (name : String) (s : RemoteState)
    (h : (DeleteJobs env name s).1 = []) :
    ((DeleteJobs env name s).2).jobs.any (fun j => j.Name == name) = false
    ∧ ((DeleteJobs env name s).2).configMaps.any (fun c => c.1 == name) = false := by
  have hfj := jobs_filter_any name s.jobs
  have hfc := configs_filter_any name s.configMaps
  unfold DeleteJobs deleteJobUnit deleteConfigMap at h ⊢
  by_cases hA : s.jobs.any (fun j => j.Name == name) = true
  all_goals by_cases hB : s.configMaps.any (fun c => c.1 == name) = true
  all_goals cases hje : env.jobDeleteError
  all_goals cases hce : env.configDeleteError
  all_goals simp [hA, hB, hje, hce, hfj, hfc] at h ⊢

/-- Deleting a name for which neither remote object exists is a complete
no-op that reports no failure, whatever remote failures are pending. -/
theorem deleteJobs_on_absent (env : DeleteEnv) (name : String) (s : RemoteState)
    (hj : s.jobs.any (fun j => j.Name == name) = false)
    (hc : s.configMaps.any (fun c => c.1 == name) = false) :
    DeleteJobs env name s = ([], s) := by
  unfold DeleteJobs deleteJobUnit deleteConfigMap
  simp [hj, hc]

/-- C5: `DeleteJobs` is idempotent — after a first call on a name that
reported success, a second call on the same name reports no failure under
any remote-failure environment, because deleting the now-absent objects is
a no-op rather than an error. -/
theorem C5_delete_jobs_idempotent (env1 env2 : DeleteEnv) (name : String) (s : RemoteState)
    (h : (DeleteJobs env1 name s).1 = []) :
    (DeleteJobs env2 name ((DeleteJobs env1 name s).2)).1 = [] := by
  obtain ⟨hj, hc⟩ := deleteJobs_success_clears env1 name s h
  rw [deleteJobs_on_absent env2 name _ hj hc]

/-- C5 witness: a concrete second deletion of the same name reports no
failure even in an environment where deleting an existing object would
fail. -/
theorem C5_witness :
    (DeleteJobs { jobDeleteError := some "x", configDeleteError := some "y" } "kubectl-trace-1"
      ((DeleteJobs {} "kubectl-trace-1"
        ⟨[("kubectl-trace-1", "p")],
         [{ Name := "kubectl-trace-1", Namespace := "default", ID := "1",
            Hostname := "n", Program := "p" }]⟩).2)).1 = [] :=
  C5_delete_jobs_idempotent {} _ "kubectl-trace-1" _ (by decide)

/-- C6: both deletions are attempted in every `DeleteJobs` call — when
both fail the aggregate reports both failures in order, and when the unit
deletion fails the config deletion is still carried out (the config object
of that name is removed while the failed unit stays). -/
theorem C6_delete_jobs_aggregate :
    (∀ (env : DeleteEnv) (name : String) (s : RemoteState) (e1 e2 : String),
      env.jobDeleteError = some e1 → env.configDeleteError = some e2 →
      s.jobs.any (fun j => j.Name == name) = true →
      s.configMaps.any (fun c => c.1 == name) = true →
      DeleteJobs env name s = ([e1, e2], s))
    ∧ (∀ (env : DeleteEnv) (name : String) (s : RemoteState) (e1 : String),
      env.jobDeleteError = some e1 → env.configDeleteError = none →
      s.jobs.any (fun j => j.Name == name) = true →
      s.configMaps.any (fun c => c.1 == name) = true →
      DeleteJobs env name s
        = ([e1], { configMaps := s.configMaps.filter (fun c => c.1 != name), jobs := s.jobs })) := by
  constructor
  · intro env name s e1 e2 h1 h2 hj hc
    simp [DeleteJobs, deleteJobUnit, deleteConfigMap, h1, h2, hj, hc]
  · intro env name s e1 h1 h2 hj hc
    simp [DeleteJobs, deleteJobUnit, deleteConfigMap, h1, h2, hj, hc]

/-- C6 witness: a concrete call in which both deletions fail reports both
failure messages, not only the first. -/
theorem C6_witness :
    DeleteJobs { jobDeleteError := some "unit delete denied",
                 configDeleteError := some "config delete denied" } "kubectl-trace-1"
      ⟨[("kubectl-trace-1", "p")],
       [{ Name := "kubectl-trace-1", Namespace := "default", ID := "1",
          Hostname := "n", Program := "p" }]⟩
      = (["unit delete denied", "config delete denied"],
         ⟨[("kubectl-trace-1", "p")],
          [{ Name := "kubectl-trace-1", Namespace := "default", ID := "1",
             Hostname := "n", Program := "p" }]⟩) :=
  C6_delete_jobs_aggregate.1 _ "kubectl-trace-1" _ "unit delete denied" "config delete denied"
    rfl rfl (by decide) (by decide)

/-- A relay phase that ended with the cancelled outcome closed the local
side of the stream, and only a present cancellation token can produce it. -/
theorem relay_cancelled (cancelAt : Option Nat) (events : List StreamEvent) :
    ∀ (t : Nat) (acc : List String),
      (relay cancelAt events t acc).1 = .cancelled →
      (relay cancelAt events t acc).2.2.2 = true ∧ cancelAt ≠ none := by
  induction events with
  | nil => intro t acc h; simp [relay] at h
  | cons e rest ih =>
    intro t acc h
    by_cases hf : fired cancelAt t = true
    · refine ⟨by simp [relay, hf], ?_⟩
      intro hnone; rw [hnone] at hf; simp [fired] at hf
    · cases e with
      | chunk str =>
        simp only [relay] at h ⊢
        rw [if_neg hf] at h ⊢
        exact ih (t + 1) (acc ++ [str]) h
      | eof => simp [relay, hf] at h
      | failure m => simp [relay, hf] at h

/-- An attacher run that ended with the cancelled outcome closed the local
side of the stream, and only a present cancellation token can produce it. -/
theorem pollLoop_cancelled (cancelAt : Option Nat) (statuses : List ExecutionStatus) :
    ∀ (t : Nat) (events : List StreamEvent),
      (pollLoop cancelAt statuses t events).outcome = .cancelled →
      (pollLoop cancelAt statuses t events).localClosed = true ∧ cancelAt ≠ none := by
  induction statuses with
  | nil => intro t events h; simp [pollLoop] at h
  | cons st rest ih =>
    intro t events h
    by_cases hf : fired cancelAt t = true
    · refine ⟨by simp [pollLoop, hf], ?_⟩
      intro hnone; rw [hnone] at hf; simp [fired] at hf
    · by_cases hst : st = .running
      · simp [pollLoop, hf, hst] at h ⊢
        exact relay_cancelled cancelAt events (t + 1) [] h
      · simp only [pollLoop] at h ⊢
        rw [if_neg hf, if_neg hst] at h ⊢
        exact ih (t + 1) events h

/-- A token firing at any tick the uncancelled relay would still consume
turns the run into a cancelled one with the local stream closed. -/
theorem relay_cancel_fires (events : List StreamEvent) :
    ∀ (t k : Nat) (acc : List String), t ≤ k →
      k < (relay none events t acc).2.2.1 →
      (relay (some k) events t acc).1 = .cancelled
      ∧ (relay (some k) events t acc).2.2.2 = true := by
  induction events with
  | nil =>
    intro t k acc htk hk
    simp [relay] at hk
    omega
  | cons e rest ih =>
    intro t k acc htk hk
    by_cases hkt : k ≤ t
    · constructor <;> simp [relay, fired, hkt]
    · have hf : fired (some k) t = false := by
        simp [fired]; omega
      cases e with
      | chunk str =>
        have hk' : k < (relay none rest (t + 1) (acc ++ [str])).2.2.1 := by
          simpa [relay, fired] using hk
        have := ih (t + 1) k (acc ++ [str]) (by omega) hk'
        simpa [relay, hf] using this
      | eof =>
        simp [relay, fired] at hk
        omega
      | failure m =>
        simp [relay, fired] at hk
        omega

/-- A token firing at any tick the uncancelled run would still consume
turns the run into a cancelled one with the local stream closed. -/
theorem pollLoop_cancel_fires (statuses : List ExecutionStatus) :
    ∀ (t k : Nat) (events : List StreamEvent), t ≤ k →
      k < (pollLoop none statuses t events).ticks →
      (pollLoop (some k) statuses t events).outcome = .cancelled
      ∧ (pollLoop (some k) statuses t events).localClosed = true := by
  induction statuses with
  | nil =>
    intro t k events htk hk
    simp [pollLoop] at hk
    omega
  | cons st rest ih =>
    intro t k events htk hk
    by_cases hkt : k ≤ t
    · constructor <;> simp [pollLoop, fired, hkt]
    · have hf : fired (some k) t = false := by
        simp [fired]; omega
      by_cases hst : st = .running
      · have hk' : k < (relay none events (t + 1) []).2.2.1 := by
          simpa [pollLoop, fired, hst] using hk
        have := relay_cancel_fires events (t + 1) k [] (by omega) hk'
        constructor <;> simp [pollLoop, hf, hst, this.1, this.2]
      · have hk' : k < (pollLoop none rest (t + 1) events).ticks := by
          simpa [pollLoop, fired, hst] using hk
        have := ih (t + 1) k events (by omega) hk'
        constructor <;> simp [pollLoop, hf, hst, this.1, this.2]

/-- When the attacher opened its stream at tick `t`, the status polled at
`t` was `running` and no earlier poll observed `running`. -/
theorem pollLoop_attach_running (statuses : List ExecutionStatus) :
    ∀ (t0 : Nat) (events : List StreamEvent) (cancelAt : Option Nat) (t : Nat),
      (pollLoop cancelAt statuses t0 events).attachTick = some t →
      ∃ i, t = t0 + i ∧ statuses.get? i = some .running
        ∧ ∀ i' < i, statuses.get? i' ≠ some .running := by
  induction statuses with
  | nil => intro t0 events cancelAt t h; simp [pollLoop] at h
  | cons st rest ih =>
    intro t0 events cancelAt t h
    by_cases hf : fired cancelAt t0 = true
    · simp [pollLoop, hf] at h
    · by_cases hst : st = .running
      · simp [pollLoop, hf, hst] at h
        refine ⟨0, by omega, by simp [hst], ?_⟩
        intro i' hi'
        omega
      · simp only [pollLoop] at h
        rw [if_neg hf, if_neg hst] at h
        obtain ⟨i, hi, hrun, hb⟩ := ih (t0 + 1) events cancelAt t h
        refine ⟨i + 1, by omega, by simpa using hrun, ?_⟩
        intro i' hi'
        cases i' with
        | zero => simpa using hst
        | succ j =>
          have := hb j (by omega)
          simpa using this

/-- Without cancellation, the attacher opens its stream at the first tick
whose polled status is `running`, after any number of retries. -/
theorem pollLoop_attaches (statuses : List ExecutionStatus) :
    ∀ (t0 : Nat) (events : List StreamEvent) (n : Nat),
      statuses.get? n = some .running →
      (∀ i < n, statuses.get? i ≠ some .running) →
      (pollLoop none statuses t0 events).attachTick = some (t0 + n) := by
  induction statuses with
  | nil => intro t0 events n h _; simp at h
  | cons st rest ih =>
    intro t0 events n h hb
    cases n with
    | zero =>
      have hst : st = .running := by simpa using h
      simp [pollLoop, fired, hst]
    | succ m =>
      have hst : st ≠ .running := by
        have := hb 0 (by omega)
        simpa using this
      have h' : rest.get? m = some .running := by simpa using h
      have hb' : ∀ i < m, rest.get? i ≠ some .running := by
        intro i hi
        have := hb (i + 1) (by omega)
        simpa using this
      have harith : t0 + (m + 1) = (t0 + 1) + m := by omega
      rw [harith]
      have := ih (t0 + 1) events m h' hb'
      simpa [pollLoop, fired, hst] using this

/-- In a status trace of `n` pending polls followed by one running poll,
position `n` observes `running`. -/
theorem replicate_running_get (n : Nat) :
    (List.replicate n ExecutionStatus.pending ++ [ExecutionStatus.running]).get? n
      = some .running := by
  induction n with
  | zero => rfl
  | succ m ih => simp [List.replicate, ih]

/-- In a status trace of `n` pending polls followed by one running poll,
every earlier position observes `pending`. -/
theorem replicate_running_get_lt (n i : Nat) (h : i < n) :
    (List.replicate n ExecutionStatus.pending ++ [ExecutionStatus.running]).get? i
      = some .pending := by
  induction n generalizing i with
  | zero => omega
  | succ m ih =>
    cases i with
    | zero => rfl
    | succ j => simpa [List.replicate] using ih j (by omega)

/-- C7: caller-initiated cancellation is never reported as an error — a
run ending with the cancelled outcome has closed the local side of the
stream and can only arise from a present cancellation token; without a
token the cancelled outcome is impossible; a token firing at any tick the
run would still consume (retry loop or mid-stream) yields the cancelled
outcome with the local stream closed; and that outcome is distinguishable
by constructor from both stream end-of-data and remote failure. -/
theorem C7_cancellation_not_error :
    (∀ (cancelAt : Option Nat) (statuses : List ExecutionStatus) (events : List StreamEvent),
      (AttachJob cancelAt statuses events).outcome = .cancelled →
      (AttachJob cancelAt statuses events).localClosed = true ∧ cancelAt ≠ none)
    ∧ (∀ (statuses : List ExecutionStatus) (events : List StreamEvent),
      (AttachJob none statuses events).outcome ≠ .cancelled)
    ∧ (∀ (k : Nat) (statuses : List ExecutionStatus) (events : List StreamEvent),
      k < (AttachJob none statuses events).ticks →
      (AttachJob (some k) statuses events).outcome = .cancelled
      ∧ (AttachJob (some k) statuses events).localClosed = true)
    ∧ (AttachOutcome.cancelled ≠ AttachOutcome.endOfStream
      ∧ ∀ m, AttachOutcome.cancelled ≠ AttachOutcome.remoteFailure m) := by
  refine ⟨?_, ?_, ?_, by decide, fun m => by simp⟩
  · intro cancelAt statuses events h
    exact pollLoop_cancelled cancelAt statuses 0 events h
  · intro statuses events h
    exact (pollLoop_cancelled none statuses 0 events h).2 rfl
  · intro k statuses events hk
    exact pollLoop_cancel_fires statuses 0 k events (Nat.zero_le k) hk

/-- C7 witness: a token firing at tick 1, while the run is still in its
retry loop, yields the cancelled outcome with the local stream closed. -/
theorem C7_witness :
    (AttachJob (some 1) [.pending, .running] [.chunk "out", .eof]).outcome
        = .cancelled
    ∧ (AttachJob (some 1) [.pending, .running] [.chunk "out", .eof]).localClosed = true :=
  C7_cancellation_not_error.2.2.1 1 [.pending, .running] [.chunk "out", .eof] (by decide)

/-- C8: the attacher never opens its stream while the observed status is
`pending` or `unknown` — an attach at tick `t` means tick `t` observed
`running` and no earlier tick did; without cancellation the attach happens
exactly at the first `running` observation; and the retry loop is bounded
by no attempt count: for every `n`, a trace of `n` pending observations
followed by a running one is attached at tick `n`. -/
theorem C8_attach_only_running :
    (∀ (cancelAt : Option Nat) (statuses : List ExecutionStatus)
        (events : List StreamEvent) (t : Nat),
      (AttachJob cancelAt statuses events).attachTick = some t →
      statuses.get? t = some .running ∧ ∀ t' < t, statuses.get? t' ≠ some .running)
    ∧ (∀ (statuses : List ExecutionStatus) (events : List StreamEvent) (n : Nat),
      statuses.get? n = some .running → (∀ i < n, statuses.get? i ≠ some .running) →
      (AttachJob none statuses events).attachTick = some n)
    ∧ (∀ (n : Nat) (events : List StreamEvent),
      (AttachJob none (List.replicate n .pending ++ [.running]) events).attachTick
        = some n) := by
  refine ⟨?_, ?_, ?_⟩
  · intro cancelAt statuses events t h
    obtain ⟨i, hi, hrun, hb⟩ := pollLoop_attach_running statuses 0 events cancelAt t h
    have hti : t = i := by omega
    subst hti
    exact ⟨hrun, hb⟩
  · intro statuses events n h hb
    have := pollLoop_attaches statuses 0 events n h hb
    simpa using this
  · intro n events
    have := pollLoop_attaches (List.replicate n .pending ++ [.running]) 0 events n
      (replicate_running_get n)
      (fun i hi => by rw [replicate_running_get_lt n i hi]; decide)
    simpa using this

/-- C8 witness: over the observations pending, unknown, running, the
stream is attached exactly at tick 2, the first running observation. -/
theorem C8_witness :
    (AttachJob none [.pending, .unknown, .running] [.eof]).attachTick = some 2 :=
  C8_attach_only_running.2.1 [.pending, .unknown, .running] [.eof] 2 (by decide) (by decide)

end KubectlTrace
